import Mathlib

/-!
# Verification of the form-submission service (app.py)

A shallow embedding of the submission-persistence path of the Flask app:
validation, the conditional multiplier business rule, append-to-store, and
best-effort remote sync.

Modelling choices:
* The filesystem is an association list from paths to workbooks; a workbook
  is the list of rows of its active sheet; a cell is a string or a rational.
* Python floats are modelled as exact rationals; the parser models
  Python float() on finite decimal literals (sign, digits, fraction,
  exponent).  inf/nan/underscore forms are outside the model and parse as
  failures; no claim depends on them.
* I/O failure of the workbook save inside append_row_and_save is modelled by
  an oracle argument (the trace the exception would carry); the boto3 upload
  outcome is likewise an oracle.  ensure_dir_for_file and directory state are
  not modelled (no claim concerns directories).
* Timestamps are opaque strings passed in by the caller (datetime.utcnow is
  outside the model); str.strip and str.isdigit are modelled on ASCII.
-/

/-- A spreadsheet cell: openpyxl stores our strings and numbers. -/
inductive Cell where
  | str (s : String)
  | num (q : ℚ)
deriving DecidableEq, Repr

/-- A row of the active sheet. -/
abbrev Row := List Cell

/-- A workbook: the ordered rows of its active sheet. -/
abbrev Workbook := List Row

/-- The filesystem: a finite map from paths to workbook files. -/
abbrev FS := List (String × Workbook)

/-- Read the file at a path (os.path.exists + load_workbook). -/
def fsGet (fs : FS) (p : String) : Option Workbook :=
  (fs.find? (fun e => e.1 == p)).map (fun e => e.2)

/-- Write the file at a path (wb.save), replacing any previous content. -/
def fsSet (fs : FS) (p : String) (wb : Workbook) : FS :=
  (p, wb) :: fs.filter (fun e => !(e.1 == p))

/-- The fixed header row written by ensure_excel (app.py line 34). -/
def headers : Row :=
  [Cell.str "TimestampUTC", Cell.str "Name", Cell.str "Phone",
   Cell.str "Email", Cell.str "Zipcode", Cell.str "Bank",
   Cell.str "AmountSent", Cell.str "ReopenedFlag"]

/-- os.path.join for a relative filename under a directory with no trailing
separator (the only shape the app uses). -/
def joinPath (d f : String) : String := d ++ "/" ++ f

/-- Environment-derived configuration (app.py lines 14-20). -/
structure Config where
  excelFile : String
  multiplier : ℤ
  s3Bucket : Option String
deriving DecidableEq, Repr

/-- EXCEL_PATH = os.path.join(os.getcwd(), EXCEL_FILE) (app.py line 16). -/
def excelPath (cfg : Config) (cwd : String) : String :=
  joinPath cwd cfg.excelFile

/-- Python truthiness of the S3_BUCKET env value: unset or empty is falsy. -/
def bucketTruthy : Option String → Bool
  | none => false
  | some s => !(s == "")

/-- ensure_excel (app.py lines 27-39): create the file with the header row
if missing, else leave it alone.  Disk errors on this path are not modelled
(no claim exercises them), so the Bool result is always true. -/
def ensure_excel (path : String) (fs : FS) : FS × Bool :=
  if (fsGet fs path).isSome then (fs, true)
  else (fsSet fs path [headers], true)

/-- append_row_and_save (app.py lines 41-56): ensure the file exists, load
it, append one row at the bottom, save.  `ioFail = some tr` models the save
raising with traceback `tr`, caught and returned as (False, tr). -/
def append_row_and_save (path : String) (row : Row) (ioFail : Option String)
    (fs : FS) : FS × Bool × Option String :=
  match ioFail with
  | some tr => (fs, false, some tr)
  | none =>
    let fs1 := if (fsGet fs path).isSome then fs else (ensure_excel path fs).1
    let wb := (fsGet fs1 path).getD []
    (fsSet fs1 path (wb ++ [row]), true, none)

/-- Python str.strip() on ASCII whitespace. -/
def pyStrip (s : String) : String :=
  String.mk (((s.data.dropWhile Char.isWhitespace).reverse.dropWhile
    Char.isWhitespace).reverse)

/-- Python `x or d` for an optional form value: None and the empty string
both fall through to the default. -/
def pyOr (o : Option String) (d : String) : String :=
  match o with
  | none => d
  | some s => if s = "" then d else s

/-- The raw POST form (request.form): each field possibly absent. -/
structure Form where
  name : Option String
  phone : Option String
  email : Option String
  zipcode : Option String
  bank : Option String
  amount : Option String
  reopened : Option String
deriving DecidableEq, Repr

/-- `(request.form.get('name') or '').strip()` (app.py line 95). -/
def fName (f : Form) : String := pyStrip (pyOr f.name "")

/-- `(request.form.get('phone') or '').strip()` (app.py line 96). -/
def fPhone (f : Form) : String := pyStrip (pyOr f.phone "")

/-- `(request.form.get('email') or '').strip()` (app.py line 97). -/
def fEmail (f : Form) : String := pyStrip (pyOr f.email "")

/-- `(request.form.get('zipcode') or '').strip()` (app.py line 98). -/
def fZipcode (f : Form) : String := pyStrip (pyOr f.zipcode "")

/-- `(request.form.get('bank') or '').strip()` (app.py line 99). -/
def fBank (f : Form) : String := pyStrip (pyOr f.bank "")

/-- `(request.form.get('amount') or '').strip()` (app.py line 100). -/
def fAmount (f : Form) : String := pyStrip (pyOr f.amount "")

/-- `(request.form.get('reopened') or '0').strip()` (app.py line 101). -/
def fReopened (f : Form) : String := pyStrip (pyOr f.reopened "0")

/-- Value of a digit string read left to right. -/
def digitsToNat (ds : List Char) : Nat :=
  ds.foldl (fun a c => a * 10 + (c.toNat - 48)) 0

/-- The parsing step of Python float() on finite decimal literals:
[sign] (digits [. digits] | . digits) [e/E [sign] digits].  Yields
(negative, integer part, fraction digits value, fraction length,
exponent negative, exponent value); inf/nan and underscore separators are
outside the model. -/
def pyFloatParse (s : String) : Option (Bool × ℕ × ℕ × ℕ × Bool × ℕ) :=
  let cs := s.data
  let signAndRest : Bool × List Char :=
    match cs with
    | '-' :: r => (true, r)
    | '+' :: r => (false, r)
    | _ => (false, cs)
  let neg := signAndRest.1
  let cs1 := signAndRest.2
  let intDs := cs1.takeWhile Char.isDigit
  let rest1 := cs1.dropWhile Char.isDigit
  let fracAndRest : List Char × List Char :=
    match rest1 with
    | '.' :: r => (r.takeWhile Char.isDigit, r.dropWhile Char.isDigit)
    | _ => ([], rest1)
  let fracDs := fracAndRest.1
  let rest2 := fracAndRest.2
  if intDs = [] ∧ fracDs = [] then none
  else
    match rest2 with
    | [] => some (neg, digitsToNat intDs, digitsToNat fracDs, fracDs.length, false, 0)
    | c :: r =>
      if c = 'e' ∨ c = 'E' then
        let esignAndRest : Bool × List Char :=
          match r with
          | '-' :: rr => (true, rr)
          | '+' :: rr => (false, rr)
          | _ => (false, r)
        let eDs := esignAndRest.2.takeWhile Char.isDigit
        let tail := esignAndRest.2.dropWhile Char.isDigit
        if eDs = [] ∨ tail ≠ [] then none
        else some (neg, digitsToNat intDs, digitsToNat fracDs, fracDs.length,
          esignAndRest.1, digitsToNat eDs)
      else none

/-- The exact rational value of a parsed float literal. -/
def pyFloatVal : Bool × ℕ × ℕ × ℕ × Bool × ℕ → ℚ
  | (neg, i, fv, fl, en, ev) =>
    let mant : ℚ := (i : ℚ) + (fv : ℚ) / ((10 : ℚ) ^ fl)
    let scaled : ℚ := if en then mant / ((10 : ℚ) ^ ev) else mant * ((10 : ℚ) ^ ev)
    if neg then -scaled else scaled

/-- Python float() on finite decimal literals, valued exactly in ℚ. -/
def pyFloat (s : String) : Option ℚ :=
  (pyFloatParse s).map pyFloatVal

/-- `email.split('@')[-1]`: the substring after the last '@' (the whole
string when there is no '@'), computed on the character list. -/
def afterLastAt (s : String) : String :=
  String.mk ((s.data.reverse.takeWhile (fun c => !(c == '@'))).reverse)

/-- The five string-field checks of /submit (app.py lines 104-113), in
source order, short-circuiting with the first failing check's message. -/
def validate5 (name phone email zipcode bank : String) : Option String :=
  if name = "" ∨ name.length < 2 then some "Name too short"
  else if phone = "" ∨ ((phone.data.filter Char.isDigit).length < 6 : Prop) then
    some "Phone looks invalid"
  else if email = "" ∨ email.data.contains '@' = false ∨
      (afterLastAt email).data.contains '.' = false then
    some "Email looks invalid"
  else if zipcode = "" ∨ zipcode.length < 3 then some "Zipcode looks invalid"
  else if bank = "" ∨ bank.length < 2 then some "Bank name required"
  else none

/-- Outcome of the boto3 upload call, supplied by the environment:
it succeeds, or raises a caught (BotoCoreError, ClientError). -/
inductive S3Outcome where
  | success
  | failure (msg trace : String)
deriving DecidableEq, Repr

/-- The JSON dict describing the sync step in responses. -/
inductive S3Json where
  | skipped (error : String)
  | uploaded (key bucket : String)
  | uploadFailed (error trace : String)
deriving DecidableEq, Repr

/-- Python `bool(d["ok"])` of an S3Json dict. -/
def S3Json.okField : S3Json → Bool
  | .uploaded _ _ => true
  | _ => false

/-- upload_to_s3 (app.py lines 58-73) with key=None: refuse when the bucket
is falsy, else upload under submissions/{ts}_{basename}; `ts` is the UTC
timestamp string the function formats, `outcome` the boto3 result. -/
def upload_to_s3 (localPath : String) (bucket : Option String) (ts : String)
    (outcome : S3Outcome) : S3Json :=
  if !(bucketTruthy bucket) then S3Json.skipped "No S3_BUCKET configured"
  else
    let basename := String.mk ((localPath.data.reverse.takeWhile
      (fun c => !(c == '/'))).reverse)
    let key := "submissions/" ++ ts ++ "_" ++ basename
    match outcome with
    | .success => S3Json.uploaded key (bucket.getD "")
    | .failure msg trace => S3Json.uploadFailed msg trace

/-- A /submit JSON response together with its HTTP status. -/
inductive Resp where
  | badRequest (error : String)
  | serverError (error save_trace file_path : String)
  | okResp (amount_sent : ℚ) (reopened_received : String) (multiplied : Bool)
      (file_exists : Bool) (file_path : String) (s3_upload : Option S3Json)
deriving DecidableEq, Repr

/-- The HTTP status code of a /submit response. -/
def Resp.status : Resp → Nat
  | .badRequest _ => 400
  | .serverError _ _ _ => 500
  | .okResp _ _ _ _ _ _ => 200

/-- Whether the response is the 200 success JSON. -/
def Resp.isOk : Resp → Bool
  | .okResp _ _ _ _ _ _ => true
  | _ => false

/-- The /submit handler (app.py lines 92-147).  `now` is the row timestamp
string, `ts` the timestamp upload_to_s3 would format for its key, `ioFail`
the append-save failure oracle, `s3o` the boto3 outcome oracle.  Returns the
filesystem after the request and the response. -/
def submit (cfg : Config) (cwd now ts : String) (ioFail : Option String)
    (s3o : S3Outcome) (f : Form) (fs : FS) : FS × Resp :=
  match validate5 (fName f) (fPhone f) (fEmail f) (fZipcode f) (fBank f) with
  | some msg => (fs, Resp.badRequest msg)
  | none =>
    match pyFloat (fAmount f) with
    | none => (fs, Resp.badRequest "Amount is invalid")
    | some raw_amount =>
      let reopened := fReopened f
      let am : ℚ × Bool :=
        if reopened = "1" then (raw_amount * (cfg.multiplier : ℚ), true)
        else (raw_amount, false)
      let row : Row :=
        [Cell.str now, Cell.str (fName f), Cell.str (fPhone f),
         Cell.str (fEmail f), Cell.str (fZipcode f), Cell.str (fBank f),
         Cell.num am.1, Cell.str reopened]
      let path := excelPath cfg cwd
      let res := append_row_and_save path row ioFail fs
      let fs1 := res.1
      let ok := res.2.1
      let err := res.2.2
      let file_exists := (fsGet fs1 path).isSome
      let s3_result : Option S3Json :=
        if ok && bucketTruthy cfg.s3Bucket then
          some (upload_to_s3 path cfg.s3Bucket ts s3o)
        else if !(bucketTruthy cfg.s3Bucket) then
          some (S3Json.skipped "S3_BUCKET not configured; skipping upload")
        else none
      if ok then
        (fs1, Resp.okResp am.1 reopened am.2 file_exists path s3_result)
      else
        (fs1, Resp.serverError "Failed to save Excel" (err.getD "") path)

/-- A /download response. -/
inductive DownloadResp where
  | notFound (error : String)
  | attachment (path : String)
deriving DecidableEq, Repr

/-- The HTTP status code of a /download response. -/
def DownloadResp.status : DownloadResp → Nat
  | .notFound _ => 404
  | .attachment _ => 200

/-- download_excel (app.py lines 150-159): serve the file named
submissions.xlsx under the current working directory, 404 when absent.
Note the filename is the literal "submissions.xlsx", not EXCEL_FILE. -/
def download_excel (cwd : String) (fs : FS) : DownloadResp :=
  let path := joinPath cwd "submissions.xlsx"
  if (fsGet fs path).isSome then DownloadResp.attachment path
  else DownloadResp.notFound "File not found. Submit once to create it."

/-! ## Derived abbreviations used to state the handler's behaviour -/

/-- `amount_sent` as computed by app.py lines 121-126. -/
def aSent (cfg : Config) (f : Form) (q : ℚ) : ℚ :=
  if fReopened f = "1" then q * (cfg.multiplier : ℚ) else q

/-- The row built at app.py line 130 for a given amount_sent. -/
def subRow (now : String) (f : Form) (a : ℚ) : Row :=
  [Cell.str now, Cell.str (fName f), Cell.str (fPhone f), Cell.str (fEmail f),
   Cell.str (fZipcode f), Cell.str (fBank f), Cell.num a, Cell.str (fReopened f)]

/-- The filesystem after the ensure-if-missing step inside
append_row_and_save. -/
def ensureFS (cfg : Config) (cwd : String) (fs : FS) : FS :=
  if (fsGet fs (excelPath cfg cwd)).isSome then fs
  else fsSet fs (excelPath cfg cwd) [headers]

/-- The s3_upload sub-object of a successful response
(app.py lines 134-138). -/
def s3Res (cfg : Config) (cwd ts : String) (s3o : S3Outcome) : S3Json :=
  if bucketTruthy cfg.s3Bucket then upload_to_s3 (excelPath cfg cwd) cfg.s3Bucket ts s3o
  else S3Json.skipped "S3_BUCKET not configured; skipping upload"

/-- The seventh cell (0-based index 6) of the last data row of the store. -/
def lastRowCell (fs : FS) (path : String) (i : Nat) : Option Cell :=
  (((fsGet fs path).getD []).getLast?).bind (fun r => r.get? i)

/-! ## Basic lemmas -/

lemma fsGet_fsSet (fs : FS) (p : String) (wb : Workbook) :
    fsGet (fsSet fs p wb) p = some wb := by
  simp [fsGet, fsSet]

/-- Characterization: a validation failure returns that message, leaving
the filesystem alone. -/
lemma submit_valErr (cfg : Config) (cwd now ts : String) (io : Option String)
    (s3o : S3Outcome) (f : Form) (fs : FS) (msg : String)
    (h : validate5 (fName f) (fPhone f) (fEmail f) (fZipcode f) (fBank f) = some msg) :
    submit cfg cwd now ts io s3o f fs = (fs, Resp.badRequest msg) := by
  simp [submit, h]

/-- Characterization: an unparseable amount returns the amount message,
leaving the filesystem alone. -/
lemma submit_amtErr (cfg : Config) (cwd now ts : String) (io : Option String)
    (s3o : S3Outcome) (f : Form) (fs : FS)
    (hv : validate5 (fName f) (fPhone f) (fEmail f) (fZipcode f) (fBank f) = none)
    (hq : pyFloat (fAmount f) = none) :
    submit cfg cwd now ts io s3o f fs = (fs, Resp.badRequest "Amount is invalid") := by
  simp [submit, hv, hq]

/-- Characterization: a failing append on a validated submission yields the
500 response with the trace and the resolved path. -/
lemma submit_ioErr (cfg : Config) (cwd now ts tr : String)
    (s3o : S3Outcome) (f : Form) (fs : FS) (q : ℚ)
    (hv : validate5 (fName f) (fPhone f) (fEmail f) (fZipcode f) (fBank f) = none)
    (hq : pyFloat (fAmount f) = some q) :
    submit cfg cwd now ts (some tr) s3o f fs =
      (fs, Resp.serverError "Failed to save Excel" tr (excelPath cfg cwd)) := by
  simp [submit, hv, hq, append_row_and_save]

/-- Characterization of a fully successful submission. -/
lemma submit_okChar (cfg : Config) (cwd now ts : String)
    (s3o : S3Outcome) (f : Form) (fs : FS) (q : ℚ)
    (hv : validate5 (fName f) (fPhone f) (fEmail f) (fZipcode f) (fBank f) = none)
    (hq : pyFloat (fAmount f) = some q) :
    submit cfg cwd now ts none s3o f fs =
      (fsSet (ensureFS cfg cwd fs) (excelPath cfg cwd)
        (((fsGet (ensureFS cfg cwd fs) (excelPath cfg cwd)).getD []) ++
          [subRow now f (aSent cfg f q)]),
       Resp.okResp (aSent cfg f q) (fReopened f) (decide (fReopened f = "1")) true
         (excelPath cfg cwd) (some (s3Res cfg cwd ts s3o))) := by
  by_cases hb : bucketTruthy cfg.s3Bucket <;>
    by_cases hr : fReopened f = "1" <;>
      simp [submit, hv, hq, append_row_and_save, ensureFS, ensure_excel,
        aSent, subRow, s3Res, fsGet_fsSet, hr, hb, apply_ite] <;>
    split_ifs <;> rfl

/-- A 200 response is only produced when validation passed, the amount
parsed, and the save did not fail. -/
lemma submit_isOk_inv (cfg : Config) (cwd now ts : String) (io : Option String)
    (s3o : S3Outcome) (f : Form) (fs : FS)
    (h : (submit cfg cwd now ts io s3o f fs).2.isOk = true) :
    validate5 (fName f) (fPhone f) (fEmail f) (fZipcode f) (fBank f) = none ∧
    (∃ q, pyFloat (fAmount f) = some q) ∧ io = none := by
  cases hval : validate5 (fName f) (fPhone f) (fEmail f) (fZipcode f) (fBank f) with
  | some msg => rw [submit_valErr cfg cwd now ts io s3o f fs msg hval] at h; simp [Resp.isOk] at h
  | none =>
    cases hq : pyFloat (fAmount f) with
    | none => rw [submit_amtErr cfg cwd now ts io s3o f fs hval hq] at h; simp [Resp.isOk] at h
    | some q =>
      cases io with
      | some tr =>
        rw [submit_ioErr cfg cwd now ts tr s3o f fs q hval hq] at h
        simp [Resp.isOk] at h
      | none => exact ⟨rfl, ⟨q, rfl⟩, rfl⟩

/-! ## The validator contract as the spec words it -/

/-- Spec-side restatement of the validation contract (spec section 4.4),
used to check the code's validator against it: rules in order,
short-circuiting on the first failure, each with its distinct message:
name present with length >= 2; phone present with >= 6 digits left after
removing non-digits; email present, containing an at-sign, with a dot after
the last at-sign; zipcode present with length >= 3; bank present with
length >= 2; amount parseable as a floating-point number. -/
def specValidate (name phone email zipcode bank amount : String) : Option String :=
  if ¬(name ≠ "" ∧ 2 ≤ name.length) then some "Name too short"
  else if ¬(phone ≠ "" ∧ 6 ≤ (phone.data.filter Char.isDigit).length) then
    some "Phone looks invalid"
  else if ¬(email ≠ "" ∧ email.data.contains '@' = true ∧
      (afterLastAt email).data.contains '.' = true) then
    some "Email looks invalid"
  else if ¬(zipcode ≠ "" ∧ 3 ≤ zipcode.length) then some "Zipcode looks invalid"
  else if ¬(bank ≠ "" ∧ 2 ≤ bank.length) then some "Bank name required"
  else if (pyFloat amount).isNone then some "Amount is invalid"
  else none

/-- The six user-facing validation messages, in rule order. -/
def validationMessages : List String :=
  ["Name too short", "Phone looks invalid", "Email looks invalid",
   "Zipcode looks invalid", "Bank name required", "Amount is invalid"]

/-- The spec-side validator agrees with the code-side chain. -/
lemma specValidate_eq (name phone email zipcode bank amount : String) :
    specValidate name phone email zipcode bank amount =
      (match validate5 name phone email zipcode bank with
       | some m => some m
       | none => if (pyFloat amount).isNone then some "Amount is invalid" else none) := by
  unfold specValidate validate5
  simp only [not_and_or, not_not, not_le, Bool.not_eq_true]
  split_ifs <;> simp_all

/-- The code-side chain only ever produces the six messages. -/
lemma validate5_mem (name phone email zipcode bank m : String)
    (h : validate5 name phone email zipcode bank = some m) :
    m ∈ validationMessages := by
  unfold validate5 at h
  split_ifs at h <;> simp_all [validationMessages]

/-! ## Repeated submissions and the store-shape invariant -/

/-- One /submit request: its timestamps, oracle outcomes and form. -/
structure SubIn where
  now : String
  ts : String
  ioFail : Option String
  s3o : S3Outcome
  form : Form

/-- Run a sequence of /submit requests, answering some final filesystem
only when every request returned the 200 success response. -/
def runAll (cfg : Config) (cwd : String) : List SubIn → FS → Option FS
  | [], fs => some fs
  | s :: rest, fs =>
    let r := submit cfg cwd s.now s.ts s.ioFail s.s3o s.form fs
    if r.2.isOk then runAll cfg cwd rest r.1 else none

/-- The store holds the fixed header row followed by n data rows of
8 fields each. -/
def storeShape (fs : FS) (path : String) (n : Nat) : Prop :=
  ∃ rows, fsGet fs path = some (headers :: rows) ∧ rows.length = n ∧
    ∀ r ∈ rows, r.length = 8

lemma ensureFS_of_shape (cfg : Config) (cwd : String) (fs : FS) (n : Nat)
    (h : storeShape fs (excelPath cfg cwd) n) : ensureFS cfg cwd fs = fs := by
  obtain ⟨rows, hget, -, -⟩ := h
  simp [ensureFS, hget]

lemma shape_append (fs : FS) (p : String) (n : Nat) (row : Row)
    (h : storeShape fs p n) (hrow : row.length = 8) :
    storeShape (fsSet fs p (((fsGet fs p).getD []) ++ [row])) p (n + 1) := by
  obtain ⟨rows, hget, hlen, hall⟩ := h
  refine ⟨rows ++ [row], ?_, by simp [hlen], ?_⟩
  · rw [fsGet_fsSet, hget]; simp
  · intro r hr
    rcases List.mem_append.1 hr with h1 | h1
    · exact hall r h1
    · simp at h1; simpa [h1] using hrow

lemma subRow_length (now : String) (f : Form) (a : ℚ) :
    (subRow now f a).length = 8 := by simp [subRow]

lemma runAll_shape (cfg : Config) (cwd : String) (subs : List SubIn) :
    ∀ fs fs2 n, storeShape fs (excelPath cfg cwd) n →
      runAll cfg cwd subs fs = some fs2 →
      storeShape fs2 (excelPath cfg cwd) (n + subs.length) := by
  induction subs with
  | nil =>
    intro fs fs2 n h hr
    simp [runAll] at hr
    subst hr
    simpa using h
  | cons s rest ih =>
    intro fs fs2 n h hr
    unfold runAll at hr
    by_cases hok : (submit cfg cwd s.now s.ts s.ioFail s.s3o s.form fs).2.isOk = true
    · rw [if_pos hok] at hr
      obtain ⟨hv, ⟨q, hq⟩, hio⟩ :=
        submit_isOk_inv cfg cwd s.now s.ts s.ioFail s.s3o s.form fs hok
      rw [hio] at hr
      rw [submit_okChar cfg cwd s.now s.ts s.s3o s.form fs q hv hq] at hr
      rw [ensureFS_of_shape cfg cwd fs n h] at hr
      have hstep := shape_append fs (excelPath cfg cwd) n
        (subRow s.now s.form (aSent cfg s.form q)) h (subRow_length _ _ _)
      have := ih _ fs2 (n + 1) hstep hr
      simpa [Nat.add_assoc, Nat.add_comm 1 rest.length] using this
    · rw [if_neg hok] at hr
      cases hr

/-! ## The claims -/

/-- C1: for every submission that passes validation, with the append
succeeding: reopened "1" yields returned and persisted amount_sent equal to
the parsed amount times MULTIPLIER with multiplied true; reopened "0"
yields the parsed amount unchanged with multiplied false. -/
theorem claim_C1 (cfg : Config) (cwd now ts : String) (s3o : S3Outcome)
    (f : Form) (fs : FS) (q : ℚ)
    (hv : validate5 (fName f) (fPhone f) (fEmail f) (fZipcode f) (fBank f) = none)
    (hq : pyFloat (fAmount f) = some q) :
    (fReopened f = "1" →
      (∃ fe s3r, (submit cfg cwd now ts none s3o f fs).2 =
        Resp.okResp (q * (cfg.multiplier : ℚ)) (fReopened f) true fe
          (excelPath cfg cwd) s3r) ∧
      lastRowCell (submit cfg cwd now ts none s3o f fs).1 (excelPath cfg cwd) 6 =
        some (Cell.num (q * (cfg.multiplier : ℚ)))) ∧
    (fReopened f = "0" →
      (∃ fe s3r, (submit cfg cwd now ts none s3o f fs).2 =
        Resp.okResp q (fReopened f) false fe (excelPath cfg cwd) s3r) ∧
      lastRowCell (submit cfg cwd now ts none s3o f fs).1 (excelPath cfg cwd) 6 =
        some (Cell.num q)) := by
  rw [submit_okChar cfg cwd now ts s3o f fs q hv hq]
  constructor
  · intro h1
    refine ⟨⟨true, some (s3Res cfg cwd ts s3o), by simp [aSent, h1]⟩, ?_⟩
    simp [lastRowCell, fsGet_fsSet, subRow, aSent, h1]
  · intro h0
    have h1 : ¬(fReopened f = "1") := by rw [h0]; decide
    refine ⟨⟨true, some (s3Res cfg cwd ts s3o), by simp [aSent, h1]⟩, ?_⟩
    simp [lastRowCell, fsGet_fsSet, subRow, aSent, h1]

/-- C2: the handler's 400 responses are exactly those of the spec's
validation contract (rules in the given order, short-circuiting, first
failing rule's message), and the six messages are pairwise distinct. -/
theorem claim_C2 (cfg : Config) (cwd now ts : String) (io : Option String)
    (s3o : S3Outcome) (f : Form) (fs : FS) :
    (∀ m, (submit cfg cwd now ts io s3o f fs).2 = Resp.badRequest m ↔
      specValidate (fName f) (fPhone f) (fEmail f) (fZipcode f) (fBank f)
        (fAmount f) = some m) ∧
    (∀ m, (submit cfg cwd now ts io s3o f fs).2 = Resp.badRequest m →
      (submit cfg cwd now ts io s3o f fs).2.status = 400) ∧
    validationMessages.Nodup := by
  refine ⟨?_, fun m h => by rw [h]; rfl, by decide⟩
  intro m
  rw [specValidate_eq]
  cases hval : validate5 (fName f) (fPhone f) (fEmail f) (fZipcode f) (fBank f) with
  | some msg =>
    rw [submit_valErr cfg cwd now ts io s3o f fs msg hval]
    simp [eq_comm]
  | none =>
    cases hq : pyFloat (fAmount f) with
    | none =>
      rw [submit_amtErr cfg cwd now ts io s3o f fs hval hq]
      simp [hq, eq_comm]
    | some q =>
      cases io with
      | some tr =>
        rw [submit_ioErr cfg cwd now ts tr s3o f fs q hval hq]
        simp [hq]
      | none =>
        rw [submit_okChar cfg cwd now ts s3o f fs q hval hq]
        simp [hq]

/-- C3: starting from an absent store (with the startup ensure_excel of
app.py line 163), after N successful submissions the store holds exactly
the 8-field header row followed by N data rows of 8 fields each. -/
theorem claim_C3 (cfg : Config) (cwd : String) (subs : List SubIn) (fs0 fs2 : FS)
    (h0 : fsGet fs0 (excelPath cfg cwd) = none)
    (hrun : runAll cfg cwd subs (ensure_excel (excelPath cfg cwd) fs0).1 = some fs2) :
    headers.length = 8 ∧
    ∃ rows, fsGet fs2 (excelPath cfg cwd) = some (headers :: rows) ∧
      rows.length = subs.length ∧ ∀ r ∈ rows, r.length = 8 := by
  have hshape : storeShape (ensure_excel (excelPath cfg cwd) fs0).1
      (excelPath cfg cwd) 0 := by
    refine ⟨[], ?_, rfl, by simp⟩
    simp [ensure_excel, h0, fsGet_fsSet]
  have hfin := runAll_shape cfg cwd subs _ fs2 0 hshape hrun
  obtain ⟨rows, hget, hlen, hall⟩ := hfin
  exact ⟨by decide, rows, hget, by simpa using hlen, hall⟩

/-! ## Concrete data for witnesses and counterexamples -/

/-- The default configuration: EXCEL_FILE=submissions.xlsx, MULTIPLIER=100,
no S3 bucket. -/
def cfgD : Config := Config.mk "submissions.xlsx" 100 none

/-- A configuration whose store filename is not the default. -/
def cfgOther : Config := Config.mk "other.xlsx" 100 none

/-- A valid form with reopened "0". -/
def formOK : Form :=
  Form.mk (some "John Doe") (some "1234567") (some "john@example.com")
    (some "12345") (some "Big Bank") (some "2") (some "0")

/-- A valid form with reopened "1". -/
def formR1 : Form :=
  Form.mk (some "John Doe") (some "1234567") (some "john@example.com")
    (some "12345") (some "Big Bank") (some "2") (some "1")

/-- A valid form except that reopened is " 1 " (whitespace around "1"). -/
def formSp1 : Form :=
  Form.mk (some "John Doe") (some "1234567") (some "john@example.com")
    (some "12345") (some "Big Bank") (some "2") (some " 1 ")

/-- A form whose raw name " A " has length 3 but strips to length 1. -/
def formBadName : Form :=
  Form.mk (some " A ") (some "1234567") (some "john@example.com")
    (some "12345") (some "Big Bank") (some "2") (some "0")

lemma formOK_valid :
    validate5 (fName formOK) (fPhone formOK) (fEmail formOK) (fZipcode formOK)
      (fBank formOK) = none := by decide

lemma formOK_amount : pyFloat (fAmount formOK) = some 2 := by
  rw [show fAmount formOK = "2" from by decide, pyFloat,
    show pyFloatParse "2" = some (false, 2, 0, 0, false, 0) from by decide]
  simp [pyFloatVal]

lemma formR1_valid :
    validate5 (fName formR1) (fPhone formR1) (fEmail formR1) (fZipcode formR1)
      (fBank formR1) = none := by decide

lemma formR1_amount : pyFloat (fAmount formR1) = some 2 := by
  rw [show fAmount formR1 = "2" from by decide, pyFloat,
    show pyFloatParse "2" = some (false, 0x2, 0, 0, false, 0) from by decide]
  simp [pyFloatVal]

lemma formSp1_valid :
    validate5 (fName formSp1) (fPhone formSp1) (fEmail formSp1) (fZipcode formSp1)
      (fBank formSp1) = none := by decide

lemma formSp1_amount : pyFloat (fAmount formSp1) = some 2 := by
  rw [show fAmount formSp1 = "2" from by decide, pyFloat,
    show pyFloatParse "2" = some (false, 2, 0, 0, false, 0) from by decide]
  simp [pyFloatVal]

/-- C4 fails as stated: under EXCEL_FILE=other.xlsx one successful
submission creates the store, yet /download still answers 404, because the
endpoint hardcodes the filename submissions.xlsx. -/
theorem claim_C4_cex :
    (submit cfgOther "/app" "T" "K" none S3Outcome.success formOK []).2.isOk = true ∧
    download_excel "/app"
        (submit cfgOther "/app" "T" "K" none S3Outcome.success formOK []).1 =
      DownloadResp.notFound "File not found. Submit once to create it." ∧
    (download_excel "/app"
        (submit cfgOther "/app" "T" "K" none S3Outcome.success formOK []).1).status =
      404 := by
  rw [submit_okChar cfgOther "/app" "T" "K" S3Outcome.success formOK [] 2
    formOK_valid formOK_amount]
  refine ⟨rfl, ?_, ?_⟩ <;> decide

/-- C4 amended: /download serves the fixed path cwd/submissions.xlsx, which
is the store exactly when EXCEL_FILE has its default value: then it is 404
while the store is absent and a 200 attachment of the store path after a
successful submission. -/
theorem claim_C4_amended (cfg : Config) (cwd now ts : String) (s3o : S3Outcome)
    (f : Form) (fs : FS) (q : ℚ)
    (hfile : cfg.excelFile = "submissions.xlsx")
    (hv : validate5 (fName f) (fPhone f) (fEmail f) (fZipcode f) (fBank f) = none)
    (hq : pyFloat (fAmount f) = some q) :
    (fsGet fs (excelPath cfg cwd) = none →
      download_excel cwd fs =
        DownloadResp.notFound "File not found. Submit once to create it." ∧
      (download_excel cwd fs).status = 404) ∧
    (download_excel cwd (submit cfg cwd now ts none s3o f fs).1 =
      DownloadResp.attachment (excelPath cfg cwd) ∧
     (download_excel cwd (submit cfg cwd now ts none s3o f fs).1).status = 200) := by
  have hpath : joinPath cwd "submissions.xlsx" = excelPath cfg cwd := by
    rw [excelPath, hfile]
  constructor
  · intro h
    rw [download_excel]
    simp only [hpath, h]
    exact ⟨rfl, rfl⟩
  · rw [submit_okChar cfg cwd now ts s3o f fs q hv hq, download_excel]
    simp only [hpath, fsGet_fsSet]
    exact ⟨rfl, rfl⟩

/-- C5: when the append fails on a validated submission, the handler
returns 500 carrying the failure trace and the resolved store path, the
store is untouched, and the remote sync outcome cannot influence the
request at all. -/
theorem claim_C5 (cfg : Config) (cwd now ts tr : String) (s3o : S3Outcome)
    (f : Form) (fs : FS) (q : ℚ)
    (hv : validate5 (fName f) (fPhone f) (fEmail f) (fZipcode f) (fBank f) = none)
    (hq : pyFloat (fAmount f) = some q) :
    submit cfg cwd now ts (some tr) s3o f fs =
      (fs, Resp.serverError "Failed to save Excel" tr (excelPath cfg cwd)) ∧
    (submit cfg cwd now ts (some tr) s3o f fs).2.status = 500 ∧
    ∀ s3b, submit cfg cwd now ts (some tr) s3b f fs =
      submit cfg cwd now ts (some tr) s3o f fs := by
  have h := submit_ioErr cfg cwd now ts tr s3o f fs q hv hq
  refine ⟨h, by rw [h]; rfl, fun s3b => ?_⟩
  rw [h, submit_ioErr cfg cwd now ts tr s3b f fs q hv hq]

/-- C6: when the append succeeds the handler returns 200 whatever the sync
outcome: a sync failure is captured as the s3_upload sub-object, and with
no bucket configured the sub-object is the structured skipped result. -/
theorem claim_C6 (cfg : Config) (cwd now ts : String) (s3o : S3Outcome)
    (f : Form) (fs : FS) (q : ℚ)
    (hv : validate5 (fName f) (fPhone f) (fEmail f) (fZipcode f) (fBank f) = none)
    (hq : pyFloat (fAmount f) = some q) :
    (submit cfg cwd now ts none s3o f fs).2.status = 200 ∧
    ∃ fe s3r, (submit cfg cwd now ts none s3o f fs).2 =
      Resp.okResp (aSent cfg f q) (fReopened f) (decide (fReopened f = "1")) fe
        (excelPath cfg cwd) (some s3r) ∧
      (bucketTruthy cfg.s3Bucket = false →
        s3r = S3Json.skipped "S3_BUCKET not configured; skipping upload") ∧
      (∀ msg trace, bucketTruthy cfg.s3Bucket = true →
        s3o = S3Outcome.failure msg trace →
        s3r = S3Json.uploadFailed msg trace) := by
  rw [submit_okChar cfg cwd now ts s3o f fs q hv hq]
  refine ⟨rfl, true, s3Res cfg cwd ts s3o, rfl, fun hb => ?_, fun msg trace hb ho => ?_⟩
  · simp [s3Res, hb]
  · simp [s3Res, hb, ho, upload_to_s3]

/-- C7: the store-ensure operation is a no-op when the file exists, is
idempotent, and is a no-op after any successful append. -/
theorem claim_C7 (path : String) (fs : FS) (row : Row) :
    ((fsGet fs path).isSome = true → ensure_excel path fs = (fs, true)) ∧
    ensure_excel path (ensure_excel path fs).1 = ((ensure_excel path fs).1, true) ∧
    ensure_excel path (append_row_and_save path row none fs).1 =
      ((append_row_and_save path row none fs).1, true) := by
  refine ⟨fun h => by simp [ensure_excel, h], ?_, ?_⟩
  · by_cases h : (fsGet fs path).isSome <;>
      simp [ensure_excel, h, fsGet_fsSet]
  · by_cases h : (fsGet fs path).isSome <;>
      simp [ensure_excel, append_row_and_save, h, fsGet_fsSet, apply_ite]

/-- C8: a 400 response leaves the store exactly as it was, carries one of
the six field-identifying messages, and neither the append-failure oracle
nor the sync outcome can influence the result: no append and no sync
happen. -/
theorem claim_C8 (cfg : Config) (cwd now ts : String) (io : Option String)
    (s3o : S3Outcome) (f : Form) (fs : FS) (m : String)
    (h : (submit cfg cwd now ts io s3o f fs).2 = Resp.badRequest m) :
    submit cfg cwd now ts io s3o f fs = (fs, Resp.badRequest m) ∧
    m ∈ validationMessages ∧
    (submit cfg cwd now ts io s3o f fs).2.status = 400 ∧
    ∀ io2 s3b, submit cfg cwd now ts io2 s3b f fs = (fs, Resp.badRequest m) := by
  cases hval : validate5 (fName f) (fPhone f) (fEmail f) (fZipcode f) (fBank f) with
  | some msg =>
    have he := submit_valErr cfg cwd now ts io s3o f fs msg hval
    rw [he] at h
    have hm : msg = m := by simpa using h
    subst hm
    exact ⟨he, validate5_mem _ _ _ _ _ _ hval, by rw [he]; rfl, fun io2 s3b =>
      submit_valErr cfg cwd now ts io2 s3b f fs msg hval⟩
  | none =>
    cases hq : pyFloat (fAmount f) with
    | none =>
      have he := submit_amtErr cfg cwd now ts io s3o f fs hval hq
      rw [he] at h
      have hm : "Amount is invalid" = m := by simpa using h
      subst hm
      exact ⟨he, by decide, by rw [he]; rfl, fun io2 s3b =>
        submit_amtErr cfg cwd now ts io2 s3b f fs hval hq⟩
    | some q =>
      cases io with
      | some tr =>
        rw [submit_ioErr cfg cwd now ts tr s3o f fs q hval hq] at h
        simp at h
      | none =>
        rw [submit_okChar cfg cwd now ts s3o f fs q hval hq] at h
        simp at h

/-- C9 fails as stated: the reopened value " 1 " is not the exact string
"1", yet the submission is multiplied (2 becomes 200, multiplied = true)
and the response echoes the stripped "1", not the received " 1 ". -/
theorem claim_C9_cex :
    (submit cfgD "/app" "T" "K" none S3Outcome.success formSp1 []).2 =
      Resp.okResp 200 "1" true true "/app/submissions.xlsx"
        (some (S3Json.skipped "S3_BUCKET not configured; skipping upload")) ∧
    " 1 " ≠ "1" := by
  rw [submit_okChar cfgD "/app" "T" "K" S3Outcome.success formSp1 [] 2
    formSp1_valid formSp1_amount]
  have hr : fReopened formSp1 = "1" := by decide
  have hp : excelPath cfgD "/app" = "/app/submissions.xlsx" := by decide
  refine ⟨?_, by decide⟩
  rw [hr, hp]
  have ha : aSent cfgD formSp1 2 = 200 := by
    rw [aSent, hr]; norm_num [cfgD]
  rw [ha]
  have hs : s3Res cfgD "/app" "K" S3Outcome.success =
      S3Json.skipped "S3_BUCKET not configured; skipping upload" := by decide
  rw [hs]
  rfl

/-- C9 amended: an absent or empty reopened field defaults to "0"; the
field is stripped, and whenever the stripped value differs from the exact
string "1" the amount passes through unmultiplied with multiplied = false,
the response echoing the stripped value. -/
theorem claim_C9_amended (cfg : Config) (cwd now ts : String) (s3o : S3Outcome)
    (f : Form) (fs : FS) (q : ℚ)
    (hv : validate5 (fName f) (fPhone f) (fEmail f) (fZipcode f) (fBank f) = none)
    (hq : pyFloat (fAmount f) = some q)
    (hr : fReopened f ≠ "1") :
    (f.reopened = none → fReopened f = "0") ∧
    (f.reopened = some "" → fReopened f = "0") ∧
    ∃ fe s3r, (submit cfg cwd now ts none s3o f fs).2 =
      Resp.okResp q (fReopened f) false fe (excelPath cfg cwd) s3r := by
  refine ⟨fun h => by unfold fReopened; rw [h]; decide,
    fun h => by unfold fReopened; rw [h]; decide, ?_⟩
  rw [submit_okChar cfg cwd now ts s3o f fs q hv hq]
  exact ⟨true, some (s3Res cfg cwd ts s3o), by simp [aSent, hr]⟩

/-- C10: every form field is stripped before validation and persistence:
a successful submission appends exactly the stripped field strings (with
the computed amount), and a raw name " A " is rejected as too short. -/
theorem claim_C10 (cfg : Config) (cwd now ts : String) (io : Option String)
    (s3o : S3Outcome) (f : Form) (fs : FS) :
    (∀ a r m fe p s3r,
      (submit cfg cwd now ts io s3o f fs).2 = Resp.okResp a r m fe p s3r →
      r = pyStrip (pyOr f.reopened "0") ∧
      ∃ wb, fsGet (submit cfg cwd now ts io s3o f fs).1 (excelPath cfg cwd) =
          some wb ∧
        wb.getLast? = some
          [Cell.str now, Cell.str (pyStrip (pyOr f.name "")),
           Cell.str (pyStrip (pyOr f.phone "")),
           Cell.str (pyStrip (pyOr f.email "")),
           Cell.str (pyStrip (pyOr f.zipcode "")),
           Cell.str (pyStrip (pyOr f.bank "")),
           Cell.num a, Cell.str (pyStrip (pyOr f.reopened "0"))]) ∧
    (f.name = some " A " →
      (submit cfg cwd now ts io s3o f fs).2 = Resp.badRequest "Name too short") := by
  constructor
  · intro a r m fe p s3r h
    have hok : (submit cfg cwd now ts io s3o f fs).2.isOk = true := by
      rw [h]; rfl
    obtain ⟨hv, ⟨q, hq⟩, hio⟩ := submit_isOk_inv cfg cwd now ts io s3o f fs hok
    subst hio
    rw [submit_okChar cfg cwd now ts s3o f fs q hv hq] at h ⊢
    simp only [Resp.okResp.injEq] at h
    obtain ⟨ha, hrr, -, -, -, -⟩ := h
    refine ⟨hrr.symm, _, fsGet_fsSet _ _ _, ?_⟩
    rw [List.getLast?_concat]
    simp [subRow, fName, fPhone, fEmail, fZipcode, fBank, fReopened, ha]
  · intro h
    have h1 : fName f = "A" := by unfold fName; rw [h]; decide
    have h2 : validate5 (fName f) (fPhone f) (fEmail f) (fZipcode f) (fBank f) =
        some "Name too short" := by
      rw [h1]; unfold validate5; rw [if_pos (Or.inr (by decide))]
    rw [submit_valErr cfg cwd now ts io s3o f fs "Name too short" h2]

/-! ## Witnesses -/

/-- Witness for C1 at a concrete reopened-"1" submission. -/
theorem claim_C1_witness :
    ∃ fe s3r, (submit cfgD "/app" "T" "K" none S3Outcome.success formR1 []).2 =
      Resp.okResp (2 * (cfgD.multiplier : ℚ)) (fReopened formR1) true fe
        (excelPath cfgD "/app") s3r :=
  ((claim_C1 cfgD "/app" "T" "K" S3Outcome.success formR1 [] 2
    formR1_valid formR1_amount).1 (by decide)).1

/-- Witness for C2 at a concrete rejected submission. -/
theorem claim_C2_witness :
    (submit cfgD "/app" "T" "K" none S3Outcome.success formBadName []).2 =
        Resp.badRequest "Name too short" ↔
      specValidate (fName formBadName) (fPhone formBadName) (fEmail formBadName)
        (fZipcode formBadName) (fBank formBadName) (fAmount formBadName) =
        some "Name too short" :=
  (claim_C2 cfgD "/app" "T" "K" none S3Outcome.success formBadName []).1
    "Name too short"

/-- One concrete successful request for the C3 witness. -/
def subW : SubIn := SubIn.mk "T" "K" none S3Outcome.success formOK

/-- The store contents after the C3 witness run. -/
def fs2W : FS :=
  [("/app/submissions.xlsx",
    [headers,
     [Cell.str "T", Cell.str "John Doe", Cell.str "1234567",
      Cell.str "john@example.com", Cell.str "12345", Cell.str "Big Bank",
      Cell.num (pyFloatVal (false, 2, 0, 0, false, 0)), Cell.str "0"]])]

/-- Witness for C3: one successful submission from an absent store. -/
theorem claim_C3_witness :
    headers.length = 8 ∧
    ∃ rows, fsGet fs2W (excelPath cfgD "/app") = some (headers :: rows) ∧
      rows.length = [subW].length ∧ ∀ r ∈ rows, r.length = 8 :=
  claim_C3 cfgD "/app" [subW] [] fs2W (by decide) (by rfl)

/-- Witness for C4 (amended) under the default configuration. -/
theorem claim_C4_witness :
    download_excel "/app" ([] : FS) =
      DownloadResp.notFound "File not found. Submit once to create it." ∧
    download_excel "/app"
        (submit cfgD "/app" "T" "K" none S3Outcome.success formOK []).1 =
      DownloadResp.attachment (excelPath cfgD "/app") :=
  ⟨((claim_C4_amended cfgD "/app" "T" "K" S3Outcome.success formOK [] 2 rfl
      formOK_valid formOK_amount).1 (by decide)).1,
   (claim_C4_amended cfgD "/app" "T" "K" S3Outcome.success formOK [] 2 rfl
      formOK_valid formOK_amount).2.1⟩

/-- Witness for C5 at a concrete failing append. -/
theorem claim_C5_witness :
    submit cfgD "/app" "T" "K" (some "TRACE") S3Outcome.success formOK [] =
      ([], Resp.serverError "Failed to save Excel" "TRACE" (excelPath cfgD "/app")) :=
  (claim_C5 cfgD "/app" "T" "K" "TRACE" S3Outcome.success formOK [] 2
    formOK_valid formOK_amount).1

/-- Witness for C6 at a concrete successful append. -/
theorem claim_C6_witness :
    (submit cfgD "/app" "T" "K" none S3Outcome.success formOK []).2.status = 200 :=
  (claim_C6 cfgD "/app" "T" "K" S3Outcome.success formOK [] 2
    formOK_valid formOK_amount).1

/-- Witness for C7 at a concrete store. -/
theorem claim_C7_witness :
    ensure_excel "p" (fsSet [] "p" [headers]) = (fsSet [] "p" [headers], true) ∧
    ensure_excel "p" (ensure_excel "p" ([] : FS)).1 =
      ((ensure_excel "p" ([] : FS)).1, true) :=
  ⟨(claim_C7 "p" (fsSet [] "p" [headers]) []).1 (by decide),
   (claim_C7 "p" ([] : FS) []).2.1⟩

/-- Witness for C8 at a concrete rejected submission. -/
theorem claim_C8_witness :
    submit cfgD "/app" "T" "K" none S3Outcome.success formBadName [] =
      ([], Resp.badRequest "Name too short") ∧
    "Name too short" ∈ validationMessages :=
  ⟨(claim_C8 cfgD "/app" "T" "K" none S3Outcome.success formBadName []
      "Name too short" (by decide)).1,
   (claim_C8 cfgD "/app" "T" "K" none S3Outcome.success formBadName []
      "Name too short" (by decide)).2.1⟩

/-- Witness for C9 (amended) at a concrete reopened-"0" submission. -/
theorem claim_C9_witness :
    ∃ fe s3r, (submit cfgD "/app" "T" "K" none S3Outcome.success formOK []).2 =
      Resp.okResp 2 (fReopened formOK) false fe (excelPath cfgD "/app") s3r :=
  (claim_C9_amended cfgD "/app" "T" "K" S3Outcome.success formOK [] 2
    formOK_valid formOK_amount (by decide)).2.2

/-- Witness for C10 at the raw name " A ". -/
theorem claim_C10_witness :
    (submit cfgD "/app" "T" "K" none S3Outcome.success formBadName []).2 =
      Resp.badRequest "Name too short" :=
  (claim_C10 cfgD "/app" "T" "K" none S3Outcome.success formBadName []).2 (by decide)
